import Mathlib

/-!
Formal model of the EasyRoutes SMS notification pipeline.

The definitions below are shallow embeddings of the program's functions:

* `get_incomplete_stops` embeds `EasyRoutesClient.get_incomplete_stops`
  (the loop that keeps every stop whose `deliveryStatus` differs from
  `"DELIVERED"`), with the `deliveryStatus` field modelled as
  `Option String` because the Python code reads it with `stop.get(...)`.
* `format_phone_number` embeds `TwilioSMSClient._format_phone_number`
  (strip non-digits, then the 10/11-digit country-code cases).
* `send_message` embeds `TwilioSMSClient.send_message` (the provider call
  wrapped so that a provider error becomes a failure record, not an
  exception).
* `stepStop` / `send_messages_to_stops` embed the per-stop loop of the
  web backend's `send_messages_to_stops` (no-phone short-circuit, success,
  provider failure and raised-exception branches, each appending exactly
  one detail entry and bumping exactly one counter).
* `send_sms` embeds the `/api/sms/send` handler (input validation, the
  160-character limit, route lookup, the empty-incomplete-stops
  short-circuit, and the dispatch call).
-/

/-- A stop's contact block: `name` and `phone` are read with `.get`, so both
are optional; an absent key is `none`. -/
structure Contact where
  name : Option String
  phone : Option String
deriving DecidableEq, Repr

/-- A route stop as delivered by the backend: id, optional `deliveryStatus`
(read with `stop.get("deliveryStatus")`), and contact block. -/
structure Stop where
  id : String
  deliveryStatus : Option String
  contact : Contact
deriving DecidableEq, Repr

/-- A route: id, display name and the ordered list of stops. -/
structure Route where
  id : String
  name : String
  stops : List Stop
deriving DecidableEq, Repr

/-- The body of the loop in `EasyRoutesClient.get_incomplete_stops`: append
the stop when its `deliveryStatus` is not `"DELIVERED"`. -/
def incompleteAcc (acc : List Stop) (stop : Stop) : List Stop :=
  if stop.deliveryStatus ≠ some "DELIVERED" then acc ++ [stop] else acc

/-- Embeds `EasyRoutesClient.get_incomplete_stops`: iterate over the route's
stops and append every stop whose `deliveryStatus` is not `"DELIVERED"`. -/
def get_incomplete_stops (route : Route) : List Stop :=
  route.stops.foldl incompleteAcc []

/-- Embeds `TwilioSMSClient._format_phone_number`: drop all non-digit
characters, then add the US country code for 10-digit numbers, a `+` for
11-digit numbers that start with `1`, and a bare `+` otherwise. -/
def format_phone_number (phone_number : String) : String :=
  let digitsOnly : List Char := phone_number.data.filter Char.isDigit
  if digitsOnly.length = 10 then
    ⟨'+' :: '1' :: digitsOnly⟩
  else if digitsOnly.length = 11 ∧ digitsOnly.head? = some '1' then
    ⟨'+' :: digitsOnly⟩
  else
    ⟨'+' :: digitsOnly⟩

/-- The provider's message object (`message.sid`, `message.status`). -/
structure TwilioMsg where
  sid : String
  status : String
deriving DecidableEq, Repr

/-- The dictionary returned by `TwilioSMSClient.send_message`. -/
structure SendMessageResult where
  success : Bool
  message_sid : Option String
  status : Option String
  «to» : String
  error : Option String
deriving DecidableEq, Repr

/-- Embeds `TwilioSMSClient.send_message`: format the number, call the
provider (`create`), and turn a provider error into a `success = false`
record instead of propagating it. -/
def send_message (create : String → String → Except String TwilioMsg)
    (to_number message_body : String) : SendMessageResult :=
  let formatted := format_phone_number to_number
  match create formatted message_body with
  | Except.ok m => ⟨true, some m.sid, some m.status, formatted, none⟩
  | Except.error e => ⟨false, none, none, to_number, some e⟩

/-- What one call `twilio_client.send_message(...)` does, as seen by the
web backend's dispatch loop: either it returns a result dictionary
(`res`), or it raises (`exn`) and the loop's handler catches it. -/
inductive SendCall where
  | res (r : SendMessageResult)
  | exn (e : String)
deriving DecidableEq, Repr

/-- One entry of the `details` list built by `send_messages_to_stops`.
Keys absent from the Python dictionary are `none`. -/
structure Detail where
  stop_id : String
  status : String
  phone : Option String
  message_sid : Option String
  error : Option String
deriving DecidableEq, Repr

/-- The `results` dictionary built by `send_messages_to_stops`. -/
structure SendResults where
  total_stops : Nat
  messages_sent : Nat
  failures : Nat
  details : List Detail
deriving DecidableEq, Repr

/-- Embeds Python's `s[-4:]`: the last four characters of `s`, or all of
`s` when it is shorter than four characters. -/
def pyLast4 (s : String) : String :=
  ⟨s.data.drop (s.data.length - 4)⟩

/-- The detail entry recorded when a stop has no usable phone number. -/
def noPhoneDetail (stop : Stop) : Detail :=
  ⟨stop.id, "failed", none, none, some "No phone number"⟩

/-- The loop body of `send_messages_to_stops`: given the accumulated
`results` and one stop, append exactly one detail entry and bump exactly
one counter, by the same case split as the Python loop (missing or empty
phone, provider-reported success, provider-reported failure, raised
exception). -/
def stepStop (provider : String → String → SendCall) (message : String)
    (acc : SendResults) (stop : Stop) : SendResults :=
  match stop.contact.phone with
  | none =>
      { acc with failures := acc.failures + 1,
                 details := acc.details ++ [noPhoneDetail stop] }
  | some p =>
      if p = "" then
        { acc with failures := acc.failures + 1,
                   details := acc.details ++ [noPhoneDetail stop] }
      else
        match provider p message with
        | SendCall.res r =>
            if r.success then
              { acc with
                  messages_sent := acc.messages_sent + 1,
                  details := acc.details ++
                    [⟨stop.id, "sent", some (pyLast4 p), r.message_sid, none⟩] }
            else
              { acc with
                  failures := acc.failures + 1,
                  details := acc.details ++
                    [⟨stop.id, "failed", some (pyLast4 p), none, r.error⟩] }
        | SendCall.exn e =>
            { acc with
                failures := acc.failures + 1,
                details := acc.details ++
                  [⟨stop.id, "failed", some (pyLast4 p), none, some e⟩] }

/-- Embeds the web backend's `send_messages_to_stops`: start from
`{total_stops: len(stops), messages_sent: 0, failures: 0, details: []}`
and run the per-stop loop. -/
def send_messages_to_stops (provider : String → String → SendCall)
    (stops : List Stop) (message : String) : SendResults :=
  stops.foldl (stepStop provider message) ⟨stops.length, 0, 0, []⟩

/-- The response of the `/api/sms/send` handler: an HTTP error with status
code and message, or a success payload with an optional explanatory note
and the results dictionary. -/
inductive ApiResponse where
  | err (status : Nat) (message : String)
  | ok (note : Option String) (results : SendResults)
deriving DecidableEq, Repr

/-- Embeds the `/api/sms/send` handler `send_sms`: reject missing inputs,
reject messages over 160 characters, 404 on an unknown route, short-circuit
with all-zero results when the route has no incomplete stops, and otherwise
dispatch via `send_messages_to_stops`. -/
def send_sms (lookup : String → Option Route)
    (provider : String → String → SendCall)
    (route_number message : String) : ApiResponse :=
  if route_number = "" ∨ message = "" then
    ApiResponse.err 400 "Route number and message are required"
  else if message.length > 160 then
    ApiResponse.err 400 "Message too long (max 160 characters)"
  else
    match lookup route_number with
    | none => ApiResponse.err 404 ("Route " ++ route_number ++ " not found")
    | some route =>
        let incomplete := get_incomplete_stops route
        if incomplete.isEmpty then
          ApiResponse.ok (some "No incomplete stops found for this route")
            ⟨0, 0, 0, []⟩
        else
          ApiResponse.ok none (send_messages_to_stops provider incomplete message)

/-- The detail entry that the loop body appends for a given stop (the same
case split as `stepStop`, projected onto the appended entry). -/
def stopDetail (provider : String → String → SendCall) (message : String)
    (stop : Stop) : Detail :=
  match stop.contact.phone with
  | none => noPhoneDetail stop
  | some p =>
      if p = "" then noPhoneDetail stop
      else
        match provider p message with
        | SendCall.res r =>
            if r.success then ⟨stop.id, "sent", some (pyLast4 p), r.message_sid, none⟩
            else ⟨stop.id, "failed", some (pyLast4 p), none, r.error⟩
        | SendCall.exn e => ⟨stop.id, "failed", some (pyLast4 p), none, some e⟩

/-- Whether the loop body counts a given stop as a sent message (the
provider was reached and reported success). -/
def stopSent (provider : String → String → SendCall) (message : String)
    (stop : Stop) : Bool :=
  match stop.contact.phone with
  | none => false
  | some p =>
      if p = "" then false
      else
        match provider p message with
        | SendCall.res r => r.success
        | SendCall.exn _ => false

/-- The incomplete-stop predicate as a Boolean, for `List.filter`. -/
def isIncomplete (s : Stop) : Bool :=
  decide (s.deliveryStatus ≠ some "DELIVERED")

lemma get_incomplete_stops_foldl_general (l : List Stop) :
    ∀ acc : List Stop,
      l.foldl incompleteAcc acc = acc ++ l.filter isIncomplete := by
  induction l with
  | nil => intro acc; simp
  | cons s rest ih =>
      intro acc
      rw [List.foldl_cons]
      by_cases h : s.deliveryStatus = some "DELIVERED"
      · have h1 : incompleteAcc acc s = acc := by simp [incompleteAcc, h]
        have h2 : isIncomplete s = false := by simp [isIncomplete, h]
        rw [h1, ih, List.filter_cons, h2]
        simp
      · have h1 : incompleteAcc acc s = acc ++ [s] := by simp [incompleteAcc, h]
        have h2 : isIncomplete s = true := by simp [isIncomplete, h]
        rw [h1, ih, List.filter_cons, h2]
        simp

/-- `get_incomplete_stops` is exactly `List.filter` of the incomplete
predicate over the route's stops. -/
lemma get_incomplete_stops_eq_filter (route : Route) :
    get_incomplete_stops route = route.stops.filter isIncomplete := by
  unfold get_incomplete_stops
  rw [get_incomplete_stops_foldl_general]
  simp

lemma stepStop_eq (provider : String → String → SendCall) (message : String)
    (acc : SendResults) (stop : Stop) :
    stepStop provider message acc stop =
      { total_stops := acc.total_stops,
        messages_sent :=
          acc.messages_sent + (if stopSent provider message stop then 1 else 0),
        failures :=
          acc.failures + (if stopSent provider message stop then 0 else 1),
        details := acc.details ++ [stopDetail provider message stop] } := by
  unfold stepStop stopSent stopDetail
  match h : stop.contact.phone with
  | none => simp
  | some p =>
      by_cases hp : p = ""
      · simp [hp]
      · match hc : provider p message with
        | SendCall.res r =>
            by_cases hs : r.success
            · simp [hp, hc, hs]
            · simp [hp, hc, hs]
        | SendCall.exn e => simp [hp, hc]

lemma foldl_stepStop_general (provider : String → String → SendCall)
    (message : String) (stops : List Stop) :
    ∀ (t a b : Nat) (ds : List Detail),
      List.foldl (stepStop provider message) ⟨t, a, b, ds⟩ stops =
        ⟨t, a + stops.countP (stopSent provider message),
            b + stops.countP (fun s => ! stopSent provider message s),
            ds ++ stops.map (stopDetail provider message)⟩ := by
  induction stops with
  | nil => intro t a b ds; simp
  | cons s rest ih =>
      intro t a b ds
      rw [List.foldl_cons, stepStop_eq, ih]
      by_cases hs : stopSent provider message s
      · simp [List.countP_cons, hs, Nat.add_comm, Nat.add_assoc, Nat.add_left_comm]
      · simp [List.countP_cons, hs, Nat.add_comm, Nat.add_assoc, Nat.add_left_comm]

/-- `send_messages_to_stops` in closed form: total is the stop count, the
sent/failed counters count the loop's success flag, and the details list is
the per-stop entry mapped over the stops in order. -/
lemma send_messages_to_stops_eq (provider : String → String → SendCall)
    (stops : List Stop) (message : String) :
    send_messages_to_stops provider stops message =
      ⟨stops.length, stops.countP (stopSent provider message),
          stops.countP (fun s => ! stopSent provider message s),
          stops.map (stopDetail provider message)⟩ := by
  simpa [send_messages_to_stops] using
    foldl_stepStop_general provider message stops stops.length 0 0 []

lemma countP_add_countP_not (p : α → Bool) (l : List α) :
    l.countP p + l.countP (fun a => ! p a) = l.length := by
  induction l with
  | nil => simp
  | cons x xs ih =>
      simp only [List.countP_cons, List.length_cons]
      by_cases h : p x <;> simp [h] <;> omega

lemma stopDetail_stop_id (provider : String → String → SendCall)
    (message : String) (stop : Stop) :
    (stopDetail provider message stop).stop_id = stop.id := by
  unfold stopDetail noPhoneDetail
  match h : stop.contact.phone with
  | none => simp
  | some p =>
      by_cases hp : p = ""
      · simp [hp]
      · match hc : provider p message with
        | SendCall.res r =>
            by_cases hs : r.success
            · simp [hp, hc, hs]
            · simp [hp, hc, hs]
        | SendCall.exn e => simp [hp, hc]

lemma stopDetail_status_of_not_sent (provider : String → String → SendCall)
    (message : String) (stop : Stop)
    (h : stopSent provider message stop = false) :
    (stopDetail provider message stop).status = "failed" := by
  unfold stopDetail noPhoneDetail
  unfold stopSent at h
  cases hph : stop.contact.phone with
  | none => simp
  | some p =>
      rw [hph] at h
      have h2 : (if p = "" then false
          else
            match provider p message with
            | SendCall.res r => r.success
            | SendCall.exn _ => false) = false := h
      by_cases hp : p = ""
      · simp [hp]
      · rw [if_neg hp] at h2
        cases hc : provider p message with
        | res r =>
            rw [hc] at h2
            have hr : r.success = false := h2
            simp [hp, hc, hr]
        | exn e => simp [hp, hc]

/-- The two non-10-digit branches of `_format_phone_number` return the same
string, so the function collapses to a two-way case split on the digit
count. -/
lemma format_phone_number_eq (s : String) :
    format_phone_number s =
      if (s.data.filter Char.isDigit).length = 10 then
        ⟨'+' :: '1' :: s.data.filter Char.isDigit⟩
      else
        ⟨'+' :: s.data.filter Char.isDigit⟩ := by
  simp [format_phone_number, ite_self]

lemma filter_isDigit_idem (l : List Char) :
    (l.filter Char.isDigit).filter Char.isDigit = l.filter Char.isDigit :=
  List.filter_eq_self.mpr (fun _ hc => List.of_mem_filter hc)

/-- The digit characters of a formatted number: formatting only ever adds
`+` (never kept by the digit filter) and, in the 10-digit case, the
country-code digit `1`. -/
lemma digits_format_phone_number (s : String) :
    (format_phone_number s).data.filter Char.isDigit =
      if (s.data.filter Char.isDigit).length = 10 then
        '1' :: s.data.filter Char.isDigit
      else
        s.data.filter Char.isDigit := by
  rw [format_phone_number_eq]
  by_cases h10 : (s.data.filter Char.isDigit).length = 10
  · simp [h10, List.filter_cons, filter_isDigit_idem]
  · simp [h10, List.filter_cons, filter_isDigit_idem]

/-- Example stop A: incomplete, no phone number on the contact. -/
def stopA : Stop := ⟨"A", some "OUT_FOR_DELIVERY", ⟨some "Alice", none⟩⟩

/-- Example stop B: incomplete, with a phone the provider accepts. -/
def stopB : Stop := ⟨"B", some "READY_FOR_DELIVERY", ⟨some "Bob", some "5550001111"⟩⟩

/-- Example stop C: incomplete, with a phone the provider rejects. -/
def stopC : Stop := ⟨"C", some "UNKNOWN", ⟨some "Carol", some "5550002222"⟩⟩

/-- Example provider: accepts stop B's number with message id `SM1`, rejects
every other number with an `InvalidNumber` error payload. -/
def exampleProvider : String → String → SendCall := fun phone _ =>
  if phone = "5550001111" then
    SendCall.res ⟨true, some "SM1", some "queued", "+15550001111", none⟩
  else
    SendCall.res ⟨false, none, none, phone, some "InvalidNumber"⟩

/-- Example route whose single stop is already delivered. -/
def routeAllDelivered : Route :=
  ⟨"r1", "Route 1", [⟨"s1", some "DELIVERED", ⟨some "Dana", some "5553334444"⟩⟩]⟩

/-- Example route lookup: `RT-1` resolves to `routeAllDelivered`. -/
def exampleLookup : String → Option Route := fun rn =>
  if rn = "RT-1" then some routeAllDelivered else none

/-- A provider that would surface loudly if it were ever invoked. -/
def silentProvider : String → String → SendCall := fun _ _ =>
  SendCall.exn "provider must not be called"

/-- Example stop whose raw phone string ends in a non-digit character. -/
def stopX : Stop := ⟨"X", some "OUT_FOR_DELIVERY", ⟨some "Pat", some "5551234567x"⟩⟩

/-- A provider that accepts every number with message id `SM9`. -/
def alwaysOkProvider : String → String → SendCall := fun _ _ =>
  SendCall.res ⟨true, some "SM9", some "queued", "", none⟩

/-- The last four digit characters of a string (what the spec's phrase
"last 4 digits of phone" denotes), as opposed to `pyLast4`, the last four
characters of the raw string. -/
def lastFourDigits (s : String) : String :=
  pyLast4 ⟨s.data.filter Char.isDigit⟩

lemma map_stopDetail_stop_id (provider : String → String → SendCall)
    (message : String) (stops : List Stop) :
    (stops.map (stopDetail provider message)).map Detail.stop_id =
      stops.map Stop.id := by
  induction stops with
  | nil => rfl
  | cons s rest ih => simp [ih, stopDetail_stop_id]

lemma stopDetail_phone (provider : String → String → SendCall)
    (message : String) (s : Stop) (p : String)
    (hp : s.contact.phone = some p) (hpe : p ≠ "") :
    (stopDetail provider message s).phone = some (pyLast4 p) := by
  unfold stopDetail
  simp only [hp]
  rw [if_neg hpe]
  cases hc : provider p message with
  | res r => by_cases hs : r.success <;> simp [hs]
  | exn e => simp

lemma pyLast4_ne (p : String) (h : 4 < p.data.length) : pyLast4 p ≠ p := by
  intro he
  have hd : p.data.drop (p.data.length - 4) = p.data := congrArg String.data he
  have hl := congrArg List.length hd
  rw [List.length_drop] at hl
  omega

/-- Example stop with no `deliveryStatus` key at all in the payload. -/
def stopNoStatus : Stop := ⟨"N", none, ⟨none, none⟩⟩

/-- Example route carrying the stop without a `deliveryStatus`. -/
def routeMissingStatus : Route := ⟨"r2", "Route 2", [stopNoStatus]⟩

/-- Claim C1: for every route, the incomplete-stop filter returns exactly the
ordered subsequence of the route's stops whose `deliveryStatus` is not
`DELIVERED`: it equals the order-preserving `filter`, it is a sublist of the
route's stops (so relative order is preserved), and a stop belongs to it
exactly when it belongs to the route with status other than `DELIVERED`. -/
theorem claim1_incomplete_stops_filter (route : Route) :
    get_incomplete_stops route = route.stops.filter isIncomplete ∧
    (get_incomplete_stops route).Sublist route.stops ∧
    ∀ s : Stop, s ∈ get_incomplete_stops route ↔
      (s ∈ route.stops ∧ s.deliveryStatus ≠ some "DELIVERED") := by
  refine ⟨get_incomplete_stops_eq_filter route, ?_, ?_⟩
  · rw [get_incomplete_stops_eq_filter]
    exact List.filter_sublist _
  · intro s
    rw [get_incomplete_stops_eq_filter, List.mem_filter]
    simp [isIncomplete]

/-- Claim C6: phone normalization first strips all non-digit characters;
with exactly 10 digits left it prefixes the default country code `+1`, with
11 digits starting with the country-code digit `1` it prefixes `+`, and
otherwise it prefixes `+` to the digit string as-is. -/
theorem claim6_normalization_cases (s : String) :
    ((s.data.filter Char.isDigit).length = 10 →
      format_phone_number s = ⟨'+' :: '1' :: s.data.filter Char.isDigit⟩) ∧
    ((s.data.filter Char.isDigit).length = 11 →
      (s.data.filter Char.isDigit).head? = some '1' →
      format_phone_number s = ⟨'+' :: s.data.filter Char.isDigit⟩) ∧
    (¬ (s.data.filter Char.isDigit).length = 10 →
      ¬ ((s.data.filter Char.isDigit).length = 11 ∧
          (s.data.filter Char.isDigit).head? = some '1') →
      format_phone_number s = ⟨'+' :: s.data.filter Char.isDigit⟩) := by
  refine ⟨?_, ?_, ?_⟩
  · intro h10
    rw [format_phone_number_eq, if_pos h10]
  · intro h11 _
    rw [format_phone_number_eq, if_neg (by omega)]
  · intro h10 _
    rw [format_phone_number_eq, if_neg h10]

/-- Witness for C6 at the concrete input `"555-123-4567"` (10 digits). -/
theorem claim6_witness :
    format_phone_number "555-123-4567" =
      ⟨'+' :: '1' :: ("555-123-4567" : String).data.filter Char.isDigit⟩ :=
  (claim6_normalization_cases "555-123-4567").1 (by decide)

/-- Claim C7: phone normalization is idempotent — normalizing the
normalizer's own output yields the same string — and in particular
normalizing `"+15551234567"` yields `"+15551234567"`. -/
theorem claim7_idempotent :
    (∀ s : String,
      format_phone_number (format_phone_number s) = format_phone_number s) ∧
    format_phone_number "+15551234567" = "+15551234567" := by
  constructor
  · intro s
    by_cases h10 : (s.data.filter Char.isDigit).length = 10
    · simp [format_phone_number_eq, digits_format_phone_number, h10]
    · simp [format_phone_number_eq, digits_format_phone_number, h10]
  · decide

/-- Claim C10: a stop whose `deliveryStatus` key is absent from the payload
(read as `none`) is included by the incomplete-stop filter, exactly like a
stop whose status is `UNKNOWN`. -/
theorem claim10_missing_status_incomplete (route : Route) (s : Stop)
    (hmem : s ∈ route.stops)
    (h : s.deliveryStatus = none ∨ s.deliveryStatus = some "UNKNOWN") :
    s ∈ get_incomplete_stops route := by
  rw [get_incomplete_stops_eq_filter, List.mem_filter]
  refine ⟨hmem, ?_⟩
  rcases h with h | h <;> simp [isIncomplete, h]

/-- Witness for C10: the status-less stop of `routeMissingStatus` is kept by
the filter. -/
theorem claim10_witness :
    stopNoStatus ∈ get_incomplete_stops routeMissingStatus :=
  claim10_missing_status_incomplete routeMissingStatus stopNoStatus
    (by decide) (Or.inl rfl)

/-- Claim C2: for every non-empty stop list, the aggregated result has
exactly one detail entry per stop, in stop order (the entry ids are the stop
ids, in order), and `messages_sent + failures` equals the number of stops;
in particular, for the three stops A (no phone), B (send succeeds) and C
(send fails with `InvalidNumber`), the result is
`{total_stops: 3, messages_sent: 1, failures: 2}` with three entries in stop
order. -/
theorem claim2_aggregation (provider : String → String → SendCall)
    (stops : List Stop) (message : String) (_hne : stops ≠ []) :
    ((send_messages_to_stops provider stops message).details.map Detail.stop_id =
        stops.map Stop.id ∧
      (send_messages_to_stops provider stops message).details.length =
        stops.length ∧
      (send_messages_to_stops provider stops message).messages_sent +
        (send_messages_to_stops provider stops message).failures =
        stops.length) ∧
    send_messages_to_stops exampleProvider [stopA, stopB, stopC] "hello" =
      ⟨3, 1, 2,
        [⟨"A", "failed", none, none, some "No phone number"⟩,
         ⟨"B", "sent", some "1111", some "SM1", none⟩,
         ⟨"C", "failed", some "2222", none, some "InvalidNumber"⟩]⟩ := by
  constructor
  · rw [send_messages_to_stops_eq]
    exact ⟨map_stopDetail_stop_id provider message stops,
      by simp, countP_add_countP_not _ _⟩
  · decide

/-- Witness for C2 at the three concrete example stops. -/
theorem claim2_witness :
    ((send_messages_to_stops exampleProvider [stopA, stopB, stopC]
          "hello").details.map Detail.stop_id =
        [stopA, stopB, stopC].map Stop.id ∧
      (send_messages_to_stops exampleProvider [stopA, stopB, stopC]
          "hello").details.length = [stopA, stopB, stopC].length ∧
      (send_messages_to_stops exampleProvider [stopA, stopB, stopC]
          "hello").messages_sent +
        (send_messages_to_stops exampleProvider [stopA, stopB, stopC]
          "hello").failures = [stopA, stopB, stopC].length) ∧
    send_messages_to_stops exampleProvider [stopA, stopB, stopC] "hello" =
      ⟨3, 1, 2,
        [⟨"A", "failed", none, none, some "No phone number"⟩,
         ⟨"B", "sent", some "1111", some "SM1", none⟩,
         ⟨"C", "failed", some "2222", none, some "InvalidNumber"⟩]⟩ :=
  claim2_aggregation exampleProvider [stopA, stopB, stopC] "hello" (by decide)

/-- Claim C3: a provider-side send failure is recorded locally and never
raised: `send_message` turns a provider error into a `success = false`
result record, and a stop whose send did not succeed contributes one
`failed` detail entry while the remaining stops are processed exactly as
they would be on their own (same details, same counts). -/
theorem claim3_local_failure
    (create : String → String → Except String TwilioMsg)
    (to_number body e : String)
    (provider : String → String → SendCall) (message : String)
    (s : Stop) (rest : List Stop)
    (hc : create (format_phone_number to_number) body = Except.error e)
    (hfail : stopSent provider message s = false) :
    send_message create to_number body = ⟨false, none, none, to_number, some e⟩ ∧
    (send_messages_to_stops provider (s :: rest) message).details =
      stopDetail provider message s ::
        (send_messages_to_stops provider rest message).details ∧
    (stopDetail provider message s).status = "failed" ∧
    (send_messages_to_stops provider (s :: rest) message).messages_sent =
      (send_messages_to_stops provider rest message).messages_sent ∧
    (send_messages_to_stops provider (s :: rest) message).failures =
      (send_messages_to_stops provider rest message).failures + 1 := by
  refine ⟨?_, ?_, stopDetail_status_of_not_sent provider message s hfail, ?_, ?_⟩
  · simp [send_message, hc]
  · rw [send_messages_to_stops_eq, send_messages_to_stops_eq]
    simp
  · rw [send_messages_to_stops_eq, send_messages_to_stops_eq]
    simp [List.countP_cons, hfail]
  · rw [send_messages_to_stops_eq, send_messages_to_stops_eq]
    simp [List.countP_cons, hfail]

/-- Witness for C3: a failing provider call for stop C ahead of stops B and
A, with a concrete erroring `create`. -/
theorem claim3_witness :
    send_message (fun _ _ => Except.error "InvalidNumber") "5550002222" "hi" =
      ⟨false, none, none, "5550002222", some "InvalidNumber"⟩ ∧
    (send_messages_to_stops exampleProvider [stopC, stopB, stopA]
        "hello").details =
      stopDetail exampleProvider "hello" stopC ::
        (send_messages_to_stops exampleProvider [stopB, stopA] "hello").details ∧
    (stopDetail exampleProvider "hello" stopC).status = "failed" ∧
    (send_messages_to_stops exampleProvider [stopC, stopB, stopA]
        "hello").messages_sent =
      (send_messages_to_stops exampleProvider [stopB, stopA]
        "hello").messages_sent ∧
    (send_messages_to_stops exampleProvider [stopC, stopB, stopA]
        "hello").failures =
      (send_messages_to_stops exampleProvider [stopB, stopA]
        "hello").failures + 1 :=
  claim3_local_failure (fun _ _ => Except.error "InvalidNumber")
    "5550002222" "hi" "InvalidNumber" exampleProvider "hello" stopC
    [stopB, stopA] rfl (by decide)

/-- Claim C4: a stop with no usable phone number is recorded directly as a
`failed` outcome with the `No phone number` reason (counted in `failures`),
and the dispatch loop body for it is independent of the provider — the
normalizer and the SMS dispatcher are never invoked for that stop. -/
theorem claim4_no_phone (provider provider2 : String → String → SendCall)
    (message : String) (acc : SendResults) (stop : Stop)
    (h : stop.contact.phone = none ∨ stop.contact.phone = some "") :
    stepStop provider message acc stop =
      { total_stops := acc.total_stops,
        messages_sent := acc.messages_sent,
        failures := acc.failures + 1,
        details := acc.details ++
          [⟨stop.id, "failed", none, none, some "No phone number"⟩] } ∧
    stepStop provider message acc stop = stepStop provider2 message acc stop := by
  have key : ∀ pr : String → String → SendCall,
      stepStop pr message acc stop =
        { total_stops := acc.total_stops,
          messages_sent := acc.messages_sent,
          failures := acc.failures + 1,
          details := acc.details ++
            [⟨stop.id, "failed", none, none, some "No phone number"⟩] } := by
    intro pr
    unfold stepStop noPhoneDetail
    rcases h with h | h <;> simp [h]
  exact ⟨key provider, (key provider).trans (key provider2).symm⟩

/-- Witness for C4 at stop A (no phone) over a non-trivial accumulator and
two different providers. -/
theorem claim4_witness :
    stepStop exampleProvider "hello" ⟨3, 1, 0, []⟩ stopA =
      { total_stops := (3 : Nat),
        messages_sent := (1 : Nat),
        failures := (0 : Nat) + 1,
        details := ([] : List Detail) ++
          [⟨stopA.id, "failed", none, none, some "No phone number"⟩] } ∧
    stepStop exampleProvider "hello" ⟨3, 1, 0, []⟩ stopA =
      stepStop silentProvider "hello" ⟨3, 1, 0, []⟩ stopA :=
  claim4_no_phone exampleProvider silentProvider "hello" ⟨3, 1, 0, []⟩ stopA
    (Or.inl rfl)

/-- Counterexample to C5 as stated: `routeAllDelivered` has 1 stop, all
delivered, yet the handler's short-circuit payload reports
`total_stops = 0`, not the route's total stop count 1 (the code hardcodes
zero and carries no `incomplete_stops` field at all). -/
theorem claim5_counterexample :
    send_sms exampleLookup silentProvider "RT-1" "hello" =
      ApiResponse.ok (some "No incomplete stops found for this route")
        ⟨0, 0, 0, []⟩ ∧
    routeAllDelivered.stops.length = 1 ∧
    (0 : Nat) ≠ 1 := by decide

/-- Claim C5 as amended: for every route with zero incomplete stops the
handler returns success (not an error) with the explanatory note and the
results `{total_stops: 0, messages_sent: 0, failures: 0, details: []}` —
`total_stops` is hardcoded to 0, not the route's stop count — and the
response is independent of the provider, so no dispatch call occurs. -/
theorem claim5_amended (lookup : String → Option Route)
    (provider provider2 : String → String → SendCall)
    (route_number message : String) (r : Route)
    (h1 : route_number ≠ "") (h2 : message ≠ "") (h3 : message.length ≤ 160)
    (h4 : lookup route_number = some r)
    (h5 : get_incomplete_stops r = []) :
    send_sms lookup provider route_number message =
      ApiResponse.ok (some "No incomplete stops found for this route")
        ⟨0, 0, 0, []⟩ ∧
    send_sms lookup provider route_number message =
      send_sms lookup provider2 route_number message := by
  have hlen : ¬ message.length > 160 := by omega
  have key : ∀ pr : String → String → SendCall,
      send_sms lookup pr route_number message =
        ApiResponse.ok (some "No incomplete stops found for this route")
          ⟨0, 0, 0, []⟩ := by
    intro pr
    simp [send_sms, h1, h2, hlen, h4, h5]
  exact ⟨key provider, (key provider).trans (key provider2).symm⟩

/-- Witness for C5 (amended) at the concrete all-delivered route. -/
theorem claim5_witness :
    send_sms exampleLookup silentProvider "RT-1" "hello" =
      ApiResponse.ok (some "No incomplete stops found for this route")
        ⟨0, 0, 0, []⟩ ∧
    send_sms exampleLookup silentProvider "RT-1" "hello" =
      send_sms exampleLookup alwaysOkProvider "RT-1" "hello" :=
  claim5_amended exampleLookup silentProvider alwaysOkProvider "RT-1" "hello"
    routeAllDelivered (by decide) (by decide) (by decide) (by decide)
    (by decide)

/-- Claim C8: a message longer than the 160-character maximum is rejected
with an HTTP 400 error before anything is dispatched: the handler returns an
error (the `Message too long` error whenever the route number is present),
and the response does not depend on the provider, so no SMS is sent and
nothing is truncated. -/
theorem claim8_reject_long_message (lookup : String → Option Route)
    (provider provider2 : String → String → SendCall)
    (route_number message : String)
    (h : 160 < message.length) :
    (∃ e, send_sms lookup provider route_number message =
        ApiResponse.err 400 e) ∧
    (route_number ≠ "" →
      send_sms lookup provider route_number message =
        ApiResponse.err 400 "Message too long (max 160 characters)") ∧
    send_sms lookup provider route_number message =
      send_sms lookup provider2 route_number message := by
  have hmsg : message ≠ "" := by
    intro he
    rw [he] at h
    simp at h
  by_cases hrn : route_number = ""
  · have key : ∀ pr : String → String → SendCall,
        send_sms lookup pr route_number message =
          ApiResponse.err 400 "Route number and message are required" := by
      intro pr
      simp [send_sms, hrn]
    exact ⟨⟨_, key provider⟩, fun hc => absurd hrn hc,
      (key provider).trans (key provider2).symm⟩
  · have key : ∀ pr : String → String → SendCall,
        send_sms lookup pr route_number message =
          ApiResponse.err 400 "Message too long (max 160 characters)" := by
      intro pr
      simp [send_sms, hrn, hmsg, h]
    exact ⟨⟨_, key provider⟩, fun _ => key provider,
      (key provider).trans (key provider2).symm⟩

set_option maxRecDepth 4000 in
/-- Witness for C8 at a concrete 161-character message. -/
theorem claim8_witness :
    (∃ e, send_sms exampleLookup silentProvider "RT-1"
        ⟨List.replicate 161 'a'⟩ = ApiResponse.err 400 e) ∧
    (("RT-1" : String) ≠ "" →
      send_sms exampleLookup silentProvider "RT-1" ⟨List.replicate 161 'a'⟩ =
        ApiResponse.err 400 "Message too long (max 160 characters)") ∧
    send_sms exampleLookup silentProvider "RT-1" ⟨List.replicate 161 'a'⟩ =
      send_sms exampleLookup alwaysOkProvider "RT-1"
        ⟨List.replicate 161 'a'⟩ :=
  claim8_reject_long_message exampleLookup silentProvider alwaysOkProvider
    "RT-1" ⟨List.replicate 161 'a'⟩ (by decide)

/-- Counterexample to C9 as stated: the outcome records the last 4
*characters* of the raw phone string, not its last 4 digits. For stop X with
raw phone `"5551234567x"` the recorded phone is `"567x"` (which contains the
non-digit `x`), while the last 4 digits are `"4567"`. -/
theorem claim9_counterexample :
    (send_messages_to_stops alwaysOkProvider [stopX] "hi").details =
      [⟨"X", "sent", some "567x", some "SM9", none⟩] ∧
    lastFourDigits "5551234567x" = "4567" ∧
    ("567x" : String) ≠ "4567" ∧
    'x' ∈ ("567x" : String).data ∧
    Char.isDigit 'x' = false := by decide

/-- Claim C9 as amended: every detail entry produced for a stop that had a
non-empty phone string records `pyLast4` of the raw string — its last 4
characters (the whole string when it is at most 4 characters long), which
equals the last 4 digits whenever the raw phone ends in 4 digits — and a
phone string longer than 4 characters is never retained in full. -/
theorem claim9_last4_characters (provider : String → String → SendCall)
    (message : String) (stops : List Stop) :
    ∀ d ∈ (send_messages_to_stops provider stops message).details,
      ∃ s, s ∈ stops ∧ d = stopDetail provider message s ∧
        ∀ p, s.contact.phone = some p → p ≠ "" →
          d.phone = some (pyLast4 p) ∧
          (4 < p.data.length → d.phone ≠ some p) := by
  intro d hd
  rw [send_messages_to_stops_eq] at hd
  simp only [List.mem_map] at hd
  obtain ⟨s, hs, hds⟩ := hd
  refine ⟨s, hs, hds.symm, ?_⟩
  intro p hp hpe
  have hph : d.phone = some (pyLast4 p) := by
    rw [← hds]
    exact stopDetail_phone provider message s p hp hpe
  refine ⟨hph, ?_⟩
  intro hlen heq
  rw [hph] at heq
  exact pyLast4_ne p hlen (Option.some.injEq _ _ ▸ heq)

/-- Witness for C9 (amended) at stop X's detail entry. -/
theorem claim9_witness :
    ∃ s, s ∈ [stopX] ∧
      (⟨"X", "sent", some "567x", some "SM9", none⟩ : Detail) =
        stopDetail alwaysOkProvider "hi" s ∧
      ∀ p, s.contact.phone = some p → p ≠ "" →
        (⟨"X", "sent", some "567x", some "SM9", none⟩ : Detail).phone =
          some (pyLast4 p) ∧
        (4 < p.data.length →
          (⟨"X", "sent", some "567x", some "SM9", none⟩ : Detail).phone ≠
            some p) :=
  claim9_last4_characters alwaysOkProvider "hi" [stopX]
    ⟨"X", "sent", some "567x", some "SM9", none⟩ (by decide)
